import Mathlib

/-
Verification development for the dsmodels hazard-model library
(src/dsmodels/base.py, src/dsmodels/security.py).

Modelling conventions, shared by every definition below:
- Python floats are modelled as exact rationals.  Every numeric literal of
  the source (table entries, thresholds such as 1.9 or 1e-6) is taken at
  its decimal face value.  The double constant math.pi is modelled by its
  exact rational value piQ.
- A pandas Series of parameters is modelled as an association list
  Series = List (String, Option Rat).  A key that is present with value
  none models a parameter that was supplied as null or NaN; a key that is
  absent models a KeyError on lookup.  The Python comparison NaN > 0
  evaluates to False, which optGt0 reproduces.
- A function that can raise (AssertionError, KeyError, NameError,
  UnboundLocalError) is modelled as returning Option; none is failure.
- The cubic splines fitted by scipy.splrep with the default smoothing
  factor 0 interpolate their data points exactly.  The two fitted spline
  functions are therefore abstracted as function parameters pod and dop;
  where a claim needs the interpolation property it is taken as a
  hypothesis (the pointwise agreement with the reference dataset).
- math.pow and math.exp are likewise abstracted as function parameters
  powf and expf; hypotheses used about powf (positivity on positive
  arguments, value 1 at base 1) are true of the real power function.
- The start_datetime environment parameter is consumed by the code only
  through the hour field obtained from strptime; the model keeps hour
  directly.  The solar elevation used by the daytime branch is the
  return value of calc_solar_angle, which is math.asin of an expression
  that always lies in [-1, 1] (it is a spherical-trigonometry cosine
  form), so it is a number in [-pi/2, pi/2]; the model passes it as an
  abstract parameter of the subtype SolarAngle, which carries that
  range bound (with the rational bound 2 > pi/2), wrapped in Option
  (none models a failure of the asserts inside calc_solar_angle).
  Because pi/2 < 15, the first degree threshold, the daytime column is
  always 1 and the radiation levels 1, 2, 3 are unreachable.
-/

/-! ## Parameter series (pandas Series of numeric-or-null values) -/

abbrev Series := List (String × Option ℚ)

/-- Lookup of a key: outer none models a KeyError (key absent), inner
none models a parameter supplied as null/NaN. -/
def sget : Series → String → Option (Option ℚ)
  | [], _ => none
  | p :: ps, k => if p.1 = k then some p.2 else sget ps k

/-- Python comparison value > 0, where a NaN compares False. -/
def optGt0 : Option ℚ → Bool
  | some v => decide (0 < v)
  | none => false

/-- Keys of the parameters that were supplied as null: the _nan_params
series built in the constructors from mat_params[mat_params.isnull()]
and env_params[env_params.isnull()]. -/
def nanParams (mat env : Series) : List String :=
  (mat.filter (fun p => p.2.isNone)).map (·.1)
    ++ (env.filter (fun p => p.2.isNone)).map (·.1)

/-- Lookup followed by the assert value > 0 pattern of the source:
missing key, null value and non-positive value all fail. -/
def getPos (s : Series) (k : String) : Option ℚ :=
  match sget s k with
  | some (some v) => if 0 < v then some v else none
  | _ => none

/-- Pandas item assignment s[k] = v: overwrite in place if the key
exists, append otherwise. -/
def seriesSet : Series → String → Option ℚ → Series
  | [], k, v => [(k, v)]
  | p :: ps, k, v => if p.1 = k then (k, v) :: ps else p :: seriesSet ps k v

/-! ## ExplosionModel (src/dsmodels/base.py lines 109-219) -/

/-- The fixed reference dataset _DIST / _PRES: overpressure (MPa) of a
1000 kg TNT explosion against distance (m). -/
def DATASET : List (ℚ × ℚ) :=
  [(5, 294/100), (6, 206/100), (7, 167/100), (8, 127/100), (9, 95/100),
   (10, 76/100), (12, 50/100), (14, 33/100), (16, 235/1000), (18, 17/100),
   (20, 126/1000), (25, 79/1000), (30, 57/1000), (35, 43/1000),
   (40, 33/1000), (45, 27/1000), (50, 235/10000), (55, 205/10000),
   (60, 18/1000), (65, 16/1000), (70, 143/10000), (75, 13/1000)]

/-- The smallest surveyed distance of the reference dataset. -/
def minSurveyedDist : ℚ := ((DATASET.map Prod.fst).min?).getD 0

/-- ExplosionModel.tnt_overpressure_of (base.py lines 164-183), with the
forward spline abstracted as pod.  The assert distance >= 0 failure is
none; beyond 75 m the result is 0, below 5 m it is 3, otherwise the
spline value. -/
def tnt_overpressure_of (pod : ℚ → ℚ) (distance : ℚ) : Option ℚ :=
  if distance < 0 then none
  else some (if 75 < distance then 0 else if distance < 5 then 3 else pod distance)

/-- ExplosionModel.tnt_distance_of (base.py lines 185-204), with the
inverse spline (fitted through the dataset re-sorted by overpressure
ascending) abstracted as dop. -/
def tnt_distance_of (dop : ℚ → ℚ) (overpressure : ℚ) : Option ℚ :=
  if overpressure < 0 then none
  else some (if 3 < overpressure then 4
             else if overpressure < 1 / 100 then 80 else dop overpressure)

/-- First-component lookup in a list of pairs of rationals, used to
build concrete interpolating functions for witness statements. -/
def tableLookup : List (ℚ × ℚ) → ℚ → ℚ
  | [], _ => 0
  | p :: ps, d => if p.1 = d then p.2 else tableLookup ps d

/-- A concrete interpolating function used to instantiate the abstract
forward spline in witness statements: table lookup on the dataset. -/
def podTable : ℚ → ℚ := tableLookup DATASET

/-- A concrete function standing in for the inverse spline in closed
counterexample and witness statements. -/
def dopTable : ℚ → ℚ := tableLookup (DATASET.map (fun p => (p.2, p.1)))

/-! ## VaporCloudExplosion (src/dsmodels/security.py lines 13-234) -/

/-- VaporCloudExplosion.calc_material_weight (security.py lines 65-93):
a supplied positive material_weight is returned as is (a null weight
compares NaN > 0 = False and falls through); otherwise volume times
density, both asserted positive after lookup. -/
def calc_material_weight (mat env : Series) : Option ℚ :=
  match sget env "material_weight" with
  | none => none
  | some w =>
    if optGt0 w then w
    else
      match sget env "material_volume", sget mat "material_density" with
      | some (some v), some (some d) =>
        if 0 < v then if 0 < d then some (v * d) else none else none
      | _, _ => none

/-- VaporCloudExplosion.calc_explosive_energy (security.py lines 95-128):
asserts alpha and beta positive, returns a cached result if present,
otherwise alpha * beta * combustion_heat * material_weight. -/
def calc_explosive_energy (mat env results : Series) (alpha beta : ℚ) : Option ℚ :=
  if 0 < alpha ∧ 0 < beta then
    match sget results "explosive_energy" with
    | some v => v
    | none =>
      match getPos mat "combustion_heat", calc_material_weight mat env with
      | some ch, some w => some (alpha * beta * ch * w)
      | _, _ => none
  else none

/-- VaporCloudExplosion.calc_turn_tnt (security.py lines 130-163): the
TNT reference energy defaults to 4500 when tnt_explosive_energy was
supplied as null (it is then in _nan_params); otherwise the supplied
value is looked up and asserted positive.  The result is the explosive
energy divided by that reference energy. -/
def calc_turn_tnt (mat env results : Series) (alpha beta : ℚ) : Option ℚ :=
  match sget results "tnt_weight" with
  | some v => v
  | none =>
    let tntE : Option ℚ :=
      if "tnt_explosive_energy" ∈ nanParams mat env then some 4500
      else
        match sget env "tnt_explosive_energy" with
        | some (some e) => if 0 < e then some e else none
        | _ => none
    match tntE, calc_explosive_energy mat env results alpha beta with
    | some te, some en => some (en / te)
    | _, _ => none

/-! Python str.format, needed because calc_wave_overpressure builds a
result label with a named placeholder.  A template is a list of literal
chunks, positional fields and named fields; formatting fails (KeyError
or IndexError) when a field has no matching argument. -/

inductive FmtPart where
  | lit (s : String)
  | pos (i : ℕ)
  | named (k : String)

/-- Python str.format over a parsed template: a named field is resolved
from the keyword arguments, a positional field from the positional list;
an unresolved field raises, modelled as none. -/
def pyFormat (tpl : List FmtPart) (args : List String)
    (kwargs : List (String × String)) : Option String :=
  tpl.foldl
    (fun acc part =>
      match acc, part with
      | some s, .lit t => some (s ++ t)
      | some s, .pos i => (args.get? i).map (s ++ ·)
      | some s, .named k =>
        ((kwargs.find? (fun p => p.1 == k)).map (·.2)).map (s ++ ·)
      | none, _ => none)
    (some "")

/-- VaporCloudExplosion.calc_wave_overpressure (security.py lines
165-190).  pow13 abstracts math.pow(w, 1/3), pod the forward spline.
Line 187 formats the label template relative_distance: {x}m with a
positional argument only, so the named field x is unresolved and the
call raises KeyError after the overpressure value has been computed. -/
def calc_wave_overpressure (pow13 : ℚ → ℚ) (pod : ℚ → ℚ)
    (mat env results : Series) (x alpha beta : ℚ) : Option ℚ :=
  if 0 < x then
    match calc_turn_tnt mat env results alpha beta with
    | none => none
    | some w =>
      let relative_dis := x / (1 / 10 * pow13 w)
      match tnt_overpressure_of pod relative_dis with
      | none => none
      | some wop =>
        let wop := if wop < 0 then 0 else wop
        match pyFormat [.lit "relative_distance: ", .named "x", .lit "m"]
                [toString x] [] with
        | none => none
        | some _ =>
          match pyFormat [.lit "distance: (", .named "x", .lit ")"] []
                  [("x", toString x)] with
          | none => none
          | some _ => some wop
  else none

/-! ## PoolFire (src/dsmodels/security.py lines 237-475) -/

/-- PoolFire.calc_burning_speed (security.py lines 284-325): a supplied
positive burning_speed is returned unchanged before any other parameter
is read.  On the computing branch the code asserts combustion heat,
specific heat capacity and gasification heat positive and env_temp not
null, reads env_temp, and then evaluates boiling_point - env_temp at
line 315; the local name boiling_point is never assigned, so that branch
raises NameError, modelled as none. -/
def calc_burning_speed (mat env : Series) : Option ℚ :=
  match sget mat "burning_speed" with
  | none => none
  | some bs =>
    if optGt0 bs then bs
    else
      match getPos mat "combustion_heat", getPos mat "specific_heat_capacity",
            getPos mat "gasification_heat" with
      | some _, some _, some _ =>
        if "env_temp" ∈ nanParams mat env then none
        else
          match sget env "env_temp" with
          | none => none
          | some _ => none
      | _, _, _ => none

/-! ## GasDiffusionModel (src/dsmodels/base.py lines 262-667) -/

/-- Environment of a constructed gas-diffusion model.  The necessary
environment parameters are carried as fields; hour is the hour of the
start_datetime timestamp (the only component the classification code
reads). -/
structure GDEnv where
  wind_speed : ℚ
  total_cloudiness : ℚ
  low_cloudiness : ℚ
  hour : ℕ

/-- The solar radiation level table _SRLT (base.py lines 269-273). -/
def SRLT : List (List ℚ) :=
  [[-2, -1, 1, 2, 3],
   [-1, 0, 1, 2, 3],
   [-1, 0, 0, 1, 1],
   [0, 0, 0, 0, 1],
   [0, 0, 0, 0, 0]]

/-- Entry of _SRLT at a row and column, as selected by iloc.  The rows
and columns produced by the classification code are always in range. -/
def srltEntry (r c : ℕ) : ℚ := (SRLT.getD r []).getD c 0

/-- The cloud-cover row classification of get_solar_radiation_level
(base.py lines 474-478).  The if/elif chain leaves the row undefined
(an UnboundLocalError at its use) when no branch matches. -/
def cloudRow (tc lc : ℚ) : Option ℕ :=
  if tc ≤ 4 ∧ lc ≤ 4 then some 0
  else if 5 ≤ tc ∧ tc < 7 ∧ lc ≤ 4 then some 1
  else if 8 ≤ tc ∧ lc ≤ 4 then some 2
  else if 5 ≤ tc ∧ 5 ≤ lc ∧ lc < 7 then some 3
  else if 8 ≤ tc ∧ 8 ≤ lc then some 4
  else none

/-- The daytime column classification from the solar elevation angle
(base.py lines 484-487); the chain is exhaustive. -/
def solarCol (s : ℚ) : ℕ :=
  if s ≤ 15 then 1 else if s ≤ 35 then 2 else if s ≤ 65 then 3 else 4

/-- The return value of calc_solar_angle (base.py lines 416-447): it is
math.asin applied to sin(lat)sin(decl) + cos(lat)cos(decl)cos(tmp), an
expression bounded by 1 in magnitude, so the angle lies in
[-pi/2, pi/2]; the subtype carries that range with the rational bound 2
(any bound below the first column threshold 15 behaves identically).
The numeric value itself is transcendental and stays abstract. -/
abbrev SolarAngle := {q : ℚ // -2 ≤ q ∧ q ≤ 2}

/-- GasDiffusionModel.get_solar_radiation_level (base.py lines 449-493).
The asserts require both cloud covers nonnegative and total at least
low.  Hours in [7, 19) take the column from the solar elevation angle
sa (the asin value of calc_solar_angle; none when calc_solar_angle
itself fails its asserts); night hours use column 0. -/
def get_solar_radiation_level (sa : Option SolarAngle) (e : GDEnv) : Option ℚ :=
  if 0 ≤ e.total_cloudiness ∧ 0 ≤ e.low_cloudiness
      ∧ e.low_cloudiness ≤ e.total_cloudiness then
    match cloudRow e.total_cloudiness e.low_cloudiness with
    | none => none
    | some row =>
      match (if 7 ≤ e.hour ∧ e.hour < 19 then sa.map (fun s => solarCol s.1)
             else some 0) with
      | none => none
      | some col => some (srltEntry row col)
  else none

/-- The wind-speed row classification of get_atmospheric_stability
(base.py lines 517-521); wind speeds in the open gap (5.9, 6.0) match
no branch and leave the row undefined. -/
def windRow (u : ℚ) : Option ℕ :=
  if 0 < u ∧ u ≤ 19 / 10 then some 0
  else if 19 / 10 < u ∧ u ≤ 29 / 10 then some 1
  else if 29 / 10 < u ∧ u ≤ 49 / 10 then some 2
  else if 49 / 10 < u ∧ u ≤ 59 / 10 then some 3
  else if 6 ≤ u then some 4
  else none

/-- The eleven atmospheric stability classes appearing in the tables. -/
inductive Stab where
  | A | AB | B | BC | C | CD | D | DE | E | EF | F
  deriving DecidableEq, Repr

/-- The atmospheric stability table _AST (base.py lines 276-281); its
columns are keyed by the radiation level strings 3, 2, 1, 0, -1, -2 in
that order. -/
def AST : List (List Stab) :=
  [[.A, .AB, .B, .D, .E, .F],
   [.AB, .B, .C, .D, .E, .F],
   [.B, .BC, .C, .D, .D, .E],
   [.C, .CD, .D, .D, .D, .D],
   [.D, .D, .D, .D, .D, .D]]

/-- Column position of a radiation level in the _AST column labels
(the code converts the level with str and indexes by that label). -/
def srlCol (srl : ℚ) : Option ℕ :=
  if srl = 3 then some 0 else if srl = 2 then some 1
  else if srl = 1 then some 2 else if srl = 0 then some 3
  else if srl = -1 then some 4 else if srl = -2 then some 5 else none

/-- Entry of _AST for a wind row and a radiation level column key. -/
def astEntry (row : ℕ) (srl : ℚ) : Option Stab :=
  match srlCol srl with
  | none => none
  | some c => (AST.getD row []).get? c

/-- GasDiffusionModel.get_atmospheric_stability (base.py lines 495-526):
asserts positive wind speed, computes the radiation level, classifies
the wind speed into a row and looks up the stability table. -/
def get_atmospheric_stability (sa : Option SolarAngle) (e : GDEnv) : Option Stab :=
  if 0 < e.wind_speed then
    match get_solar_radiation_level sa e with
    | none => none
    | some srl =>
      match windRow e.wind_speed with
      | none => none
      | some row => astEntry row srl
  else none

/-- The dispersion parameter coefficient table _DPCT with its two-level
index (base.py lines 284-338): stability class and sub-row label.  The
blocks for classes A~B, B, B~C and C hold only the sub-rows labelled 1
and 2, so a lookup of sub-row 0 there is a KeyError, modelled as none.
Each row is (alpha1, gama1, alpha2, gama2). -/
def dpctRow : Stab → ℕ → Option (ℚ × ℚ × ℚ × ℚ)
  | .A, 0 => some (0, 0, 112154/100000, 79990/1000000)
  | .A, 1 => some (901074/1000000, 425809/1000000, 151360/100000, 8548/1000000)
  | .A, 2 => some (850934/1000000, 602052/1000000, 210881/100000, 212/1000000)
  | .AB, 1 => some (907722/1000000, 353828/1000000, 119986/100000, 71909/1000000)
  | .AB, 2 => some (857974/1000000, 499203/1000000, 160119/100000, 28618/1000000)
  | .B, 1 => some (914370/1000000, 281846/1000000, 96444/100000, 127190/1000000)
  | .B, 2 => some (865014/1000000, 396353/1000000, 109356/100000, 57025/1000000)
  | .BC, 1 => some (919325/1000000, 229500/1000000, 94102/100000, 114682/1000000)
  | .BC, 2 => some (875086/1000000, 314238/1000000, 100770/100000, 75718/1000000)
  | .C, 1 => some (924279/1000000, 177154/1000000, 0, 0)
  | .C, 2 => some (885157/1000000, 232123/1000000, 91760/100000, 106803/1000000)
  | .CD, 0 => some (0, 0, 83863/100000, 126152/1000000)
  | .CD, 1 => some (926849/1000000, 143940/1000000, 75641/100000, 235667/1000000)
  | .CD, 2 => some (886940/1000000, 189396/1000000, 81558/100000, 136659/1000000)
  | .D, 0 => some (0, 0, 82621/100000, 104634/1000000)
  | .D, 1 => some (929418/1000000, 110726/1000000, 63202/100000, 400167/1000000)
  | .D, 2 => some (888723/1000000, 146669/1000000, 55536/100000, 810763/1000000)
  | .DE, 0 => some (0, 0, 77686/100000, 111771/1000000)
  | .DE, 1 => some (925118/1000000, 98563/1000000, 57235/100000, 528992/1000000)
  | .DE, 2 => some (892794/1000000, 124308/1000000, 49915/100000, 1037100/1000000)
  | .E, 0 => some (0, 0, 78837/100000, 92753/1000000)
  | .E, 1 => some (920818/1000000, 86400/1000000, 56518/100000, 433384/1000000)
  | .E, 2 => some (896864/1000000, 101947/1000000, 41474/100000, 1732410/1000000)
  | .EF, 0 => some (0, 0, 78639/100000, 77415/1000000)
  | .EF, 1 => some (925118/1000000, 70882/1000000, 54558/100000, 401700/1000000)
  | .EF, 2 => some (892794/1000000, 87641/1000000, 36870/100000, 2069660/1000000)
  | .F, 0 => some (0, 0, 78440/100000, 62077/1000000)
  | .F, 1 => some (929418/1000000, 55363/1000000, 52597/100000, 370015/1000000)
  | .F, 2 => some (888723/1000000, 73335/1000000, 32266/100000, 2406910/1000000)
  | _, _ => none

/-- Selection of the horizontal pair (alpha1, gama1) from the sub-row hi
and the vertical pair (alpha2, gama2) from the sub-row vi of the block
of a stability class, the vdpcgs.loc / ddpcgs.loc step of the source. -/
def dpctPick (stat : Stab) (hi vi : ℕ) : Option ((ℚ × ℚ) × (ℚ × ℚ)) :=
  match dpctRow stat hi, dpctRow stat vi with
  | some hr, some vr => some ((hr.1, hr.2.1), (vr.2.2.1, vr.2.2.2))
  | _, _ => none

/-- The distance-band branching of get_diffusion_param_coeffs (base.py
lines 559-608), translated branch for branch: for each stability class
and downwind distance it attempts the sub-row lookups written in the
source (vdpcgs.loc for the horizontal pair, ddpcgs.loc for the vertical
pair). -/
def coeffSelect (stat : Stab) (x : ℚ) : Option ((ℚ × ℚ) × (ℚ × ℚ)) :=
  match stat with
  | .A =>
    if 0 < x ∧ x ≤ 300 then dpctPick stat 1 0
    else if 300 < x ∧ x ≤ 500 then dpctPick stat 1 1
    else if 500 < x ∧ x ≤ 1000 then dpctPick stat 1 2
    else dpctPick stat 2 2
  | .AB | .B | .BC =>
    if 0 < x ∧ x ≤ 500 then dpctPick stat 0 0
    else if 500 < x ∧ x ≤ 1000 then dpctPick stat 0 1
    else dpctPick stat 1 1
  | .C =>
    if 0 < x ∧ x ≤ 1000 then dpctPick stat 0 1
    else dpctPick stat 1 1
  | .D | .E | .EF | .F =>
    if 0 < x ∧ x ≤ 1000 then dpctPick stat 1 0
    else if 1000 < x ∧ x ≤ 10000 then dpctPick stat 2 1
    else dpctPick stat 2 2
  | _ =>
    if 0 < x ∧ x ≤ 1000 then dpctPick stat 1 0
    else if 1000 < x ∧ x ≤ 2000 then dpctPick stat 2 1
    else dpctPick stat 2 2

/-- GasDiffusionModel.get_diffusion_param_coeffs (base.py lines 528-615)
for a call that supplies the downwind distance hdis and no GIS point,
as every call of the claims does.  With pgis absent the entry assert
requires hdis nonnegative, the stability class is computed, x is hdis,
and the band selection above picks the coefficient pairs. -/
def get_diffusion_param_coeffs (sa : Option SolarAngle) (e : GDEnv) (hdis : ℚ) :
    Option (((ℚ × ℚ) × (ℚ × ℚ)) × ℚ) :=
  if 0 ≤ hdis then
    match get_atmospheric_stability sa e with
    | none => none
    | some stat =>
      match coeffSelect stat hdis with
      | none => none
      | some sel => some (sel, hdis)
  else none

/-- GasDiffusionModel.calc_diffusion_parameters (base.py lines 617-652):
asserts 30 <= freq < 6000, fetches the coefficient pairs, computes
sigma_y = gama1 * x ^ alpha1 and sigma_z = gama2 * x ^ alpha2 with the
abstract power function powf, and applies the sampling correction
factor powf (freq_h / 0.5) q to sigma_y. -/
def calc_diffusion_parameters (powf : ℚ → ℚ → ℚ) (sa : Option SolarAngle) (e : GDEnv)
    (hdis freq : ℚ) : Option (ℚ × ℚ) :=
  if 30 ≤ freq ∧ freq < 6000 then
    match get_diffusion_param_coeffs sa e hdis with
    | none => none
    | some (sel, x) =>
      let freq_h := freq / 60
      let sigma_y := sel.1.2 * powf x sel.1.1
      let sigma_z := sel.2.2 * powf x sel.2.1
      let q : ℚ := if 1 / 2 ≤ freq_h ∧ freq_h < 1 then 1 / 5 else 3 / 10
      some (sigma_y * powf (freq_h / (1 / 2)) q, sigma_z)
  else none

/-- The distance-band table of section 6 of the specification, written
from the words of the spec: for each stability class and distance it
prescribes the pair (horizontal sub-row index, vertical sub-row index)
to select. -/
def specBandIdx (stat : Stab) (x : ℚ) : ℕ × ℕ :=
  match stat with
  | .A =>
    if x ≤ 300 then (1, 0) else if x ≤ 500 then (1, 1)
    else if x ≤ 1000 then (1, 2) else (2, 2)
  | .AB | .B | .BC =>
    if x ≤ 500 then (0, 0) else if x ≤ 1000 then (0, 1) else (1, 1)
  | .C => if x ≤ 1000 then (0, 1) else (1, 1)
  | .D | .E | .EF | .F =>
    if x ≤ 1000 then (1, 0) else if x ≤ 10000 then (2, 1) else (2, 2)
  | _ => if x ≤ 1000 then (1, 0) else if x ≤ 2000 then (2, 1) else (2, 2)

/-! ## PointSourceGasDiffusion (src/dsmodels/security.py lines 478-690) -/

/-- Environment of a point-source gas-diffusion model: the gas-diffusion
environment plus the source strength. -/
structure PSEnv extends GDEnv where
  source_strength : ℚ

/-- The exact rational value of the double constant math.pi. -/
def piQ : ℚ := 884279719003555 / 281474976710656

/-- PointSourceGasDiffusion.calc_source_strength (security.py lines
509-516): returns the supplied source strength when it is positive and
otherwise falls off the end of the function, returning Python None,
modelled as none. -/
def calc_source_strength (e : PSEnv) : Option ℚ :=
  if 0 < e.source_strength then some e.source_strength else none

/-- PointSourceGasDiffusion.calc_concentration (security.py lines
551-603) for a call without GIS point: asserts ddis, srch, vdis
nonnegative and the wind speed positive, perturbs hdis by the float
literal 1e-32 (in IEEE double arithmetic this perturbation is absorbed
for any distance of magnitude at least about 1e-16, so the diffusion
parameters are those of the queried distance), computes sigma_y and
sigma_z at the default sampling frequency 30, and evaluates one of the
four algebraic forms of the Gaussian plume formula; expf abstracts
math.exp.  A result below 1e-6 is clamped to 0. -/
def calc_concentration (powf : ℚ → ℚ → ℚ) (expf : ℚ → ℚ) (sa : Option SolarAngle)
    (e : PSEnv) (hdis vdis ddis srch : ℚ) : Option ℚ :=
  if 0 ≤ ddis ∧ 0 ≤ srch ∧ 0 ≤ vdis ∧ 0 < e.wind_speed then
    let hdis := hdis + 1 / 10 ^ 32
    let y := vdis
    match calc_diffusion_parameters powf sa e.toGDEnv hdis 30,
          calc_source_strength e with
    | some (sigma_y, sigma_z), some q =>
      let a1 := q / (piQ * e.wind_speed * sigma_y * sigma_z)
      let a2 := -(1 / 2) * (y / sigma_y) ^ 2
      let a3 := -(1 / 2) * ((ddis - srch) / sigma_z) ^ 2
      let a4 := -(1 / 2) * ((ddis + srch) / sigma_z) ^ 2
      let c :=
        if (srch = 0 ∨ ddis = 0) ∧ vdis ≠ 0 then a1 * expf (a2 + a4)
        else if vdis = 0 ∧ ddis = 0 ∧ srch ≠ 0 then a1 * expf a4
        else if vdis = 0 ∧ ddis = 0 ∧ srch = 0 then a1
        else 1 / 2 * a1 * (expf (a2 + a3) + expf (a2 + a4))
      some (if c < 1 / 10 ^ 6 then 0 else c)
    | _, _ => none
  else none

/-! ## SecurityModel accessors under a reference model (C9)

The base-class getters of src/dsmodels/base.py lines 41-57 return the
attribute objects themselves; only the setters copy (lines 45 and 49).
To make aliasing observable the object state lives in a small heap of
Series values addressed by natural numbers; a getter returns an
address. -/

abbrev Heap := List Series

/-- Allocate a fresh series on the heap, returning its address. -/
def halloc (h : Heap) (s : Series) : Heap × ℕ := (h ++ [s], h.length)

/-- Read the series at an address. -/
def hread (h : Heap) (a : ℕ) : Series := h.getD a []

/-- Overwrite the series at an address. -/
def hwrite (h : Heap) (a : ℕ) (s : Series) : Heap := h.set a s

/-- A SecurityModel object: addresses of its _mat_params, _env_params
and _results attributes. -/
structure SModel where
  matAddr : ℕ
  envAddr : ℕ
  resAddr : ℕ

/-- SecurityModel.__init__ (base.py lines 21-39): allocates the empty
results series, then stores copies of the two parameter inputs through
set_material_params and set_environment_params (which call .copy(), so
fresh cells are allocated). -/
def initModel (h : Heap) (matIn envIn : Series) : Heap × SModel :=
  let r := halloc h []
  let m := halloc r.1 matIn
  let e := halloc m.1 envIn
  (e.1, ⟨m.2, e.2, r.2⟩)

/-- SecurityModel.get_material_params (base.py line 47): returns
self._mat_params itself, the live internal reference, without a copy. -/
def get_material_params (o : SModel) : ℕ := o.matAddr

/-- SecurityModel.get_environment_params (base.py line 51): returns the
live internal reference. -/
def get_environment_params (o : SModel) : ℕ := o.envAddr

/-- SecurityModel.get_results (base.py line 57): returns the live
internal reference. -/
def get_results (o : SModel) : ℕ := o.resAddr

/-! ## Concrete instances used by the claims -/

/-- Material parameters of the vapor-cloud scenario of claim C4:
combustion heat 45980 kJ per kg (the gasline material of the module
test). -/
def mat4 : Series := [("material_density", some 790), ("combustion_heat", some 45980)]

/-- Environment of the C4 scenario with the TNT reference energy
supplied as null (hence in the absent-value set) and a supplied
positive mass of 23700 kg. -/
def env4a : Series :=
  [("tnt_explosive_energy", none), ("material_volume", none),
   ("material_weight", some 23700)]

/-- Environment of the C4 scenario with the TNT reference energy
supplied as the value e. -/
def env4bGen (e : ℚ) : Series :=
  [("tnt_explosive_energy", some e), ("material_volume", none),
   ("material_weight", some 23700)]

/-- Pool-fire material parameters with the burning speed supplied as
null, so that calc_burning_speed takes its computing branch; the other
parameters are positive and the boiling point exceeds the ambient
temperature. -/
def matPF : Series :=
  [("boiling_point", some 371), ("combustion_heat", some 41030000),
   ("specific_heat_capacity", some 2000), ("gasification_heat", some 300000),
   ("burning_speed", none)]

/-- Pool-fire environment parameters with a non-null ambient
temperature. -/
def envPF : Series :=
  [("env_temp", some 298), ("pool_radius", some (247 / 10)),
   ("air_density", some (1293 / 1000))]

/-- The claim C7 environment: wind speed 1, total cloud cover 5, low
cloud cover 4, at the given hour. -/
def envC7 (h : ℕ) : GDEnv := ⟨1, 5, 4, h⟩

/-- A daytime environment (wind speed 1, total cloud cover 3, low cloud
cover 2, hour 12): the cloud row is 0 and, the daytime column being
always 1, the radiation level is -1 and the stability class is E. -/
def envA : GDEnv := ⟨1, 3, 2, 12⟩

/-- A concrete solar elevation angle (1 radian), used to exercise the
daytime branch in witnesses and concrete evaluations. -/
def saNoon : SolarAngle := ⟨1, by norm_num⟩

/-- Point-source environment for the claim C8 counterexample: wind
speed 7 (stability class D at night), tiny positive source strength. -/
def e8 : PSEnv := ⟨⟨7, 5, 4, 23⟩, 1 / 10 ^ 8⟩

/-- Point-source environment for the claim C8 witness: as e8 but with
source strength 1. -/
def e8b : PSEnv := ⟨⟨7, 5, 4, 23⟩, 1⟩

/-- A model instance built on the empty heap for the claim C9
counterexample. -/
def demoInit : Heap × SModel := initModel [] [("a", some 1)] [("b", some 2)]

/-- The heap after mutating, through the reference returned by
get_material_params, the mapping it returns: the caller adds a key x. -/
def demoMutated : Heap :=
  hwrite demoInit.1 (get_material_params demoInit.2)
    (seriesSet (hread demoInit.1 (get_material_params demoInit.2)) "x" (some 9))

/-! ## Claim theorems -/

/-- C2: tnt_overpressure_of fails for negative distance; beyond the
table maximum of 75 m it returns 0, below the table minimum of 5 m it
returns the capped ceiling 3.0, and otherwise it evaluates the forward
spline, so that the overpressure is 2.94 at 5 m and 0.013 at 75 m
(the interpolating spline passes through the reference data), exactly
0 at 80 m and exactly 3.0 at 4 m. -/
theorem C2_tnt_overpressure (pod : ℚ → ℚ)
    (hpod : ∀ p ∈ DATASET, pod p.1 = p.2) :
    (∀ d : ℚ, d < 0 → tnt_overpressure_of pod d = none) ∧
    (∀ d : ℚ, 75 < d → tnt_overpressure_of pod d = some 0) ∧
    (∀ d : ℚ, 0 ≤ d → d < 5 → tnt_overpressure_of pod d = some 3) ∧
    (∀ d : ℚ, 5 ≤ d → d ≤ 75 → tnt_overpressure_of pod d = some (pod d)) ∧
    tnt_overpressure_of pod 5 = some 2.94 ∧
    tnt_overpressure_of pod 75 = some 0.013 ∧
    tnt_overpressure_of pod 80 = some 0 ∧
    tnt_overpressure_of pod 4 = some 3 := by
  have h5 : pod 5 = 294 / 100 := hpod (5, 294/100) (by norm_num [DATASET])
  have h75 : pod 75 = 13 / 1000 := hpod (75, 13/1000) (by norm_num [DATASET])
  refine ⟨?_, ?_, ?_, ?_, ?_, ?_, ?_, ?_⟩
  · intro d hd; simp [tnt_overpressure_of, hd]
  · intro d hd
    rw [tnt_overpressure_of, if_neg (by linarith), if_pos hd]
  · intro d hd0 hd5
    rw [tnt_overpressure_of, if_neg (by linarith), if_neg (by linarith), if_pos hd5]
  · intro d hd5 hd75
    rw [tnt_overpressure_of, if_neg (by linarith), if_neg (by linarith),
        if_neg (by linarith)]
  · rw [tnt_overpressure_of, if_neg (by norm_num), if_neg (by norm_num),
        if_neg (by norm_num), h5]; norm_num
  · rw [tnt_overpressure_of, if_neg (by norm_num), if_neg (by norm_num),
        if_neg (by norm_num), h75]; norm_num
  · rw [tnt_overpressure_of, if_neg (by norm_num), if_pos (by norm_num)]
  · rw [tnt_overpressure_of, if_neg (by norm_num), if_neg (by norm_num),
        if_pos (by norm_num)]

/-- C2 witness: the theorem applied to the concrete interpolating table
function, with every hypothesis discharged on concrete inputs. -/
theorem C2_witness :
    tnt_overpressure_of podTable (-1) = none ∧
    tnt_overpressure_of podTable 5 = some 2.94 ∧
    tnt_overpressure_of podTable 75 = some 0.013 ∧
    tnt_overpressure_of podTable 80 = some 0 ∧
    tnt_overpressure_of podTable 4 = some 3 := by
  have h := C2_tnt_overpressure podTable (by
    intro p hp
    fin_cases hp <;> norm_num [podTable, tableLookup, DATASET])
  exact ⟨h.1 (-1) (by norm_num), h.2.2.2.2.1, h.2.2.2.2.2.1,
         h.2.2.2.2.2.2.1, h.2.2.2.2.2.2.2⟩

/-- C3 counterexample: for a pressure above 3.0 (here 4 MPa) the code
returns the fixed distance 4 m, which is not the minimum surveyed
distance of the reference table (5 m); also a negative pressure fails
the entry assertion instead of mapping to the far-field cap. -/
theorem C3_counterexample :
    tnt_distance_of dopTable 4 = some 4 ∧ minSurveyedDist = 5 ∧
    tnt_distance_of dopTable 4 ≠ some minSurveyedDist ∧
    tnt_distance_of dopTable (-1) = none := by
  have h1 : tnt_distance_of dopTable 4 = some 4 := by norm_num [tnt_distance_of]
  have h2 : minSurveyedDist = 5 := by norm_num [minSurveyedDist, DATASET]
  refine ⟨h1, h2, ?_, by norm_num [tnt_distance_of]⟩
  rw [h1, h2]; norm_num

/-- C3 amended: tnt_distance_of fails for negative pressure; for every
pressure above 3.0 it returns the fixed near-field distance 4 m (one
metre below the minimum surveyed distance 5 m of the table); for every
nonnegative pressure below 0.01 it returns the far-field cap of 80 m;
in between it evaluates the inverse spline dop. -/
theorem C3_tnt_distance (dop : ℚ → ℚ) :
    (∀ p : ℚ, p < 0 → tnt_distance_of dop p = none) ∧
    (∀ p : ℚ, 3 < p → tnt_distance_of dop p = some 4) ∧
    (∀ p : ℚ, 0 ≤ p → p < 0.01 → tnt_distance_of dop p = some 80) ∧
    (∀ p : ℚ, 0.01 ≤ p → p ≤ 3 → tnt_distance_of dop p = some (dop p)) := by
  refine ⟨?_, ?_, ?_, ?_⟩
  · intro p hp; simp [tnt_distance_of, hp]
  · intro p hp
    rw [tnt_distance_of, if_neg (by linarith), if_pos hp]
  · intro p hp0 hp
    rw [show ((0.01 : ℚ)) = 1 / 100 from by norm_num] at hp
    rw [tnt_distance_of, if_neg (by linarith), if_neg (by linarith), if_pos hp]
  · intro p hp1 hp3
    rw [show ((0.01 : ℚ)) = 1 / 100 from by norm_num] at hp1
    rw [tnt_distance_of, if_neg (by linarith), if_neg (by linarith),
        if_neg (by linarith)]

/-- C3 witness: the amended theorem applied at the pressures 4, 0.005
and 1.67 MPa. -/
theorem C3_witness :
    tnt_distance_of dopTable 4 = some 4 ∧
    tnt_distance_of dopTable 0.005 = some 80 ∧
    tnt_distance_of dopTable 1.67 = some (dopTable 1.67) := by
  have h := C3_tnt_distance dopTable
  exact ⟨h.2.1 4 (by norm_num), h.2.2.1 0.005 (by norm_num) (by norm_num),
         h.2.2.2 1.67 (by norm_num) (by norm_num)⟩

/-- C4: for a VaporCloudExplosion with combustion heat 45980 and a
supplied positive mass of 23700 (fresh instance, empty result cache),
calc_explosive_energy with alpha 0.04 and beta 1.8 returns
0.04 * 1.8 * 45980 * 23700, and calc_turn_tnt divides that energy by
4500 when the TNT reference energy was supplied as absent, and by the
supplied positive reference energy otherwise. -/
theorem C4_explosive_energy_tnt :
    calc_explosive_energy mat4 env4a [] 0.04 1.8 =
      some (0.04 * 1.8 * 45980 * 23700) ∧
    calc_turn_tnt mat4 env4a [] 0.04 1.8 =
      some (0.04 * 1.8 * 45980 * 23700 / 4500) ∧
    (∀ e : ℚ, 0 < e →
      calc_turn_tnt mat4 (env4bGen e) [] 0.04 1.8 =
        some (0.04 * 1.8 * 45980 * 23700 / e)) := by
  refine ⟨?_, ?_, ?_⟩
  · simp [calc_explosive_energy, calc_material_weight, mat4, env4a,
      sget, getPos, optGt0]
    norm_num
  · simp [calc_turn_tnt, calc_explosive_energy, calc_material_weight,
      mat4, env4a, sget, getPos, optGt0, nanParams]
    norm_num
  · intro e he
    simp [calc_turn_tnt, calc_explosive_energy, calc_material_weight,
      mat4, env4bGen, sget, getPos, optGt0, nanParams, he]
    norm_num

/-- C4 witness: the supplied-reference branch of the theorem applied at
the reference energy 4675 of the module test. -/
theorem C4_witness :
    calc_turn_tnt mat4 (env4bGen 4675) [] 0.04 1.8 =
      some (0.04 * 1.8 * 45980 * 23700 / 4675) :=
  C4_explosive_energy_tnt.2.2 4675 (by norm_num)

/-- C5: calc_wave_overpressure never returns: after computing the
clamped overpressure of the forward curve at the scaled distance it
formats the label template relative_distance: {x}m with a positional
argument only (security.py line 187), so the named field x is
unresolved and the call raises KeyError; here evaluated on the C4
instance at distance 1 m. -/
theorem C5_wave_overpressure_crash :
    calc_wave_overpressure (fun _ => 10) podTable mat4 env4a [] 1 0.04 1.8 = none ∧
    pyFormat [.lit "relative_distance: ", .named "x", .lit "m"]
      [toString (1 : ℚ)] [] = none := by
  constructor
  · simp [calc_wave_overpressure, calc_turn_tnt, calc_explosive_energy,
      calc_material_weight, mat4, env4a, sget, getPos, optGt0, nanParams,
      tnt_overpressure_of, pyFormat]
    norm_num
  · simp [pyFormat]

/-- C6: a supplied positive burning speed is returned unchanged, for
every material and environment series (in particular independently of
any boiling point or ambient temperature entries); on the computing
branch, here with all required parameters positive and ambient
temperature supplied, the code fails (NameError at security.py line
315, where the unassigned local boiling_point is read) instead of
returning the Burgess-Hertzberg flux. -/
theorem C6_burning_speed (mat env : Series) (bs : ℚ)
    (hsup : sget mat "burning_speed" = some (some bs)) (hpos : 0 < bs) :
    calc_burning_speed mat env = some bs ∧
    calc_burning_speed matPF envPF = none := by
  constructor
  · rw [calc_burning_speed, hsup]
    simp [optGt0, hpos]
  · simp [calc_burning_speed, matPF, envPF, sget, getPos, optGt0, nanParams]

/-- C6 witness: the theorem applied to the raw-oil burning speed 0.0781
of the module test. -/
theorem C6_witness :
    calc_burning_speed [("burning_speed", some (781 / 10000))] envPF =
      some (781 / 10000) :=
  (C6_burning_speed [("burning_speed", some (781 / 10000))] envPF (781 / 10000)
    (by simp [sget]) (by norm_num)).1

/-- C7 counterexample: for wind speed 1, total cloud cover 5, low cloud
cover 4 at a night hour, the code classifies the cloud cover into row 1
(the branch 5 <= tc < 7 with lc <= 4), so the returned radiation level
is -1, which differs from the Solar Radiation Level table entry at
row 3, column 0 (that entry is 0) named by the claim. -/
theorem C7_counterexample :
    get_solar_radiation_level none (envC7 23) = some (-1) ∧
    srltEntry 3 0 = 0 ∧
    get_solar_radiation_level none (envC7 23) ≠ some (srltEntry 3 0) := by
  have h1 : get_solar_radiation_level none (envC7 23) = some (-1) := by
    simp [get_solar_radiation_level, envC7, cloudRow, srltEntry, SRLT]
    norm_num
  have h2 : srltEntry 3 0 = 0 := by simp [srltEntry, SRLT]
  refine ⟨h1, h2, ?_⟩
  rw [h1, h2]
  norm_num

/-- C7 amended: with wind speed 1, total cloud cover 5, low cloud
cover 4 and any hour outside 07:00-19:00, the radiation level is the
Solar Radiation Level table entry at row 1, column 0, namely -1, and
get_atmospheric_stability returns exactly the Atmospheric Stability
table entry for the wind-speed band of 1 (row 0) and that level
(column key -1), namely class E. -/
theorem C7_night_stability (h : ℕ) (sa : Option SolarAngle) (hn : ¬(7 ≤ h ∧ h < 19)) :
    get_solar_radiation_level sa (envC7 h) = some (srltEntry 1 0) ∧
    srltEntry 1 0 = -1 ∧
    windRow 1 = some 0 ∧
    get_atmospheric_stability sa (envC7 h) = some Stab.E ∧
    astEntry 0 (-1) = some Stab.E := by
  have hsr : get_solar_radiation_level sa (envC7 h) = some (-1) := by
    simp [get_solar_radiation_level, envC7, cloudRow, srltEntry, SRLT, hn]
    norm_num
  refine ⟨?_, ?_, ?_, ?_, ?_⟩
  · rw [hsr]; simp [srltEntry, SRLT]
  · simp [srltEntry, SRLT]
  · norm_num [windRow]
  · rw [get_atmospheric_stability, if_pos (by norm_num [envC7])]
    rw [hsr]
    norm_num [windRow, envC7, astEntry, srlCol, AST]
  · norm_num [astEntry, srlCol, AST]

/-- C7 witness: the amended theorem applied at the night hour 23. -/
theorem C7_witness :
    get_solar_radiation_level none (envC7 23) = some (srltEntry 1 0) ∧
    get_atmospheric_stability none (envC7 23) = some Stab.E := by
  have h := C7_night_stability 23 none (by omega)
  exact ⟨h.1, h.2.2.2.1⟩

/-- C10: the classification chains are not total.  Every wind speed
strictly between 5.9 and 6.0 matches no wind-speed band, and
get_atmospheric_stability then fails (undefined row) instead of
returning a stability class; every total cloud cover strictly between
7 and 8 with low cloud cover at most 4, and every low cloud cover
equal to 7, matches no cloud-cover row, and get_solar_radiation_level
then fails instead of returning a level. -/
theorem C10_classification_gaps :
    (∀ u : ℚ, 5.9 < u → u < 6 → windRow u = none) ∧
    (∀ (sa : Option SolarAngle) (e : GDEnv), 5.9 < e.wind_speed → e.wind_speed < 6 →
      (get_solar_radiation_level sa e).isSome →
      get_atmospheric_stability sa e = none) ∧
    (∀ tc lc : ℚ, 7 < tc → tc < 8 → 0 ≤ lc → lc ≤ 4 → cloudRow tc lc = none) ∧
    (∀ tc : ℚ, 7 ≤ tc → cloudRow tc 7 = none) ∧
    (∀ (sa : Option SolarAngle) (e : GDEnv),
      0 ≤ e.low_cloudiness → e.low_cloudiness ≤ e.total_cloudiness →
      cloudRow e.total_cloudiness e.low_cloudiness = none →
      get_solar_radiation_level sa e = none) := by
  have hwind : ∀ u : ℚ, 5.9 < u → u < 6 → windRow u = none := by
    intro u h1 h2
    rw [show ((5.9 : ℚ)) = 59 / 10 from by norm_num] at h1
    rw [windRow, if_neg (by rintro ⟨-, h⟩; linarith),
        if_neg (by rintro ⟨-, h⟩; linarith),
        if_neg (by rintro ⟨-, h⟩; linarith),
        if_neg (by rintro ⟨-, h⟩; linarith),
        if_neg (by intro h; linarith)]
  refine ⟨hwind, ?_, ?_, ?_, ?_⟩
  · intro sa e h1 h2 hsome
    rw [get_atmospheric_stability, if_pos (by linarith [show (5.9:ℚ) < e.wind_speed from h1]; )]
    obtain ⟨srl, hsrl⟩ := Option.isSome_iff_exists.mp hsome
    rw [hsrl, hwind e.wind_speed h1 h2]
  · intro tc lc h1 h2 h3 h4
    rw [cloudRow, if_neg (by rintro ⟨h, -⟩; linarith),
        if_neg (by rintro ⟨-, h, -⟩; linarith),
        if_neg (by rintro ⟨h, -⟩; linarith),
        if_neg (by rintro ⟨-, h, -⟩; linarith),
        if_neg (by rintro ⟨h, -⟩; linarith)]
  · intro tc h1
    rw [cloudRow, if_neg (by rintro ⟨-, h⟩; linarith),
        if_neg (by rintro ⟨-, -, h⟩; linarith),
        if_neg (by rintro ⟨-, h⟩; linarith),
        if_neg (by rintro ⟨-, -, h⟩; linarith),
        if_neg (by rintro ⟨-, h⟩; linarith)]
  · intro sa e h1 h2 hrow
    rw [get_solar_radiation_level]
    split_ifs <;> simp [hrow]

/-- C10 witness: the gap theorem applied at wind speed 5.95, cloud
covers (7.5, 4) and (8, 7). -/
theorem C10_witness :
    windRow 5.95 = none ∧
    get_atmospheric_stability none ⟨5.95, 5, 4, 23⟩ = none ∧
    cloudRow 7.5 4 = none ∧
    cloudRow 8 7 = none ∧
    get_solar_radiation_level none ⟨1, 7.5, 4, 23⟩ = none := by
  have h := C10_classification_gaps
  refine ⟨h.1 5.95 (by norm_num) (by norm_num), ?_, ?_, ?_, ?_⟩
  · exact h.2.1 none ⟨5.95, 5, 4, 23⟩ (by norm_num) (by norm_num)
      (by simp [get_solar_radiation_level, cloudRow, srltEntry, SRLT]; norm_num)
  · exact h.2.2.1 7.5 4 (by norm_num) (by norm_num) (by norm_num) (by norm_num)
  · exact h.2.2.2.1 8 (by norm_num)
  · exact h.2.2.2.2 none ⟨1, 7.5, 4, 23⟩ (by norm_num) (by norm_num)
      (h.2.2.1 7.5 4 (by norm_num) (by norm_num) (by norm_num) (by norm_num))

/-- The daytime column is always 1: the solar elevation is an asin
value, bounded by pi/2 < 15, the first threshold of the column
chain. -/
theorem solarCol_solar_angle (s : SolarAngle) : solarCol s.1 = 1 := by
  have h := s.2.2
  rw [solarCol, if_pos (by linarith)]

/-- The cloud-cover chain only ever assigns rows 0 to 4. -/
theorem cloudRow_le4 (tc lc : ℚ) (r : ℕ) (h : cloudRow tc lc = some r) :
    r ≤ 4 := by
  rw [cloudRow] at h
  split_ifs at h <;> simp_all <;> omega

/-- The wind-speed chain only ever assigns rows 0 to 4. -/
theorem windRow_le4 (u : ℚ) (r : ℕ) (h : windRow u = some r) : r ≤ 4 := by
  rw [windRow] at h
  split_ifs at h <;> simp_all <;> omega

/-- Reachable solar radiation levels: with the daytime column pinned to
1 and the night column 0, get_solar_radiation_level can only return
-2, -1 or 0 (levels 1, 2, 3 are dead values of the table). -/
theorem srl_reachable (sa : Option SolarAngle) (e : GDEnv) (srl : ℚ)
    (h : get_solar_radiation_level sa e = some srl) :
    srl = -2 ∨ srl = -1 ∨ srl = 0 := by
  rw [get_solar_radiation_level] at h
  split_ifs at h with hassert hday
  · cases hcr : cloudRow e.total_cloudiness e.low_cloudiness with
    | none => rw [hcr] at h; simp at h
    | some r =>
      rw [hcr] at h
      have hr4 := cloudRow_le4 _ _ _ hcr
      cases sa with
      | none => simp at h
      | some s =>
        simp [solarCol_solar_angle s] at h
        subst h
        interval_cases r <;> norm_num [srltEntry, SRLT]
  · cases hcr : cloudRow e.total_cloudiness e.low_cloudiness with
    | none => rw [hcr] at h; simp at h
    | some r =>
      rw [hcr] at h
      have hr4 := cloudRow_le4 _ _ _ hcr
      simp at h
      subst h
      interval_cases r <;> norm_num [srltEntry, SRLT]

/-- Reachable stability classes: with the radiation level in
{-2, -1, 0}, the stability table lookup can only produce the classes
D, E and F; the classes A, A~B, B, B~C, C, C~D, D~E and E~F are
unreachable, so the sub-row-0 KeyError of the coefficient table is
dead code. -/
theorem stability_reachable (sa : Option SolarAngle) (e : GDEnv) (stat : Stab)
    (h : get_atmospheric_stability sa e = some stat) :
    stat = Stab.D ∨ stat = Stab.E ∨ stat = Stab.F := by
  rw [get_atmospheric_stability] at h
  split_ifs at h with hws
  · cases hsrl : get_solar_radiation_level sa e with
    | none => rw [hsrl] at h; simp at h
    | some srl =>
      rw [hsrl] at h
      cases hwr : windRow e.wind_speed with
      | none => rw [hwr] at h; simp at h
      | some row =>
        rw [hwr] at h
        have hr4 := windRow_le4 _ _ hwr
        rcases srl_reachable sa e srl hsrl with rfl | rfl | rfl <;>
          interval_cases row <;>
          norm_num [astEntry, srlCol, AST] at h <;>
          simp_all

/-- For the reachable classes D, E and F every distance band selects
sub-rows that exist, so the coefficient selection always succeeds. -/
theorem coeffSelect_reachable (stat : Stab) (x : ℚ) (_hx : 0 < x)
    (hstat : stat = Stab.D ∨ stat = Stab.E ∨ stat = Stab.F) :
    (coeffSelect stat x).isSome := by
  rcases hstat with rfl | rfl | rfl <;>
    (simp only [coeffSelect]; split_ifs <;> simp [dpctPick, dpctRow])

set_option maxHeartbeats 1600000 in
/-- C1: the distance-band branching of get_diffusion_param_coeffs
selects, for every stability class and positive downwind distance,
exactly the sub-rows the section-6 band table prescribes (first
conjunct: the code selection equals the lookup of the spec-prescribed
pair of sub-row indices), and for class A at 100 m the selection yields
the horizontal row-1 and vertical row-0 coefficient pairs (second
conjunct).  Moreover the selection always succeeds on real runs: the
only stability classes the program can produce are D, E and F (the
solar elevation is an asin value in radians, below every degree
threshold of the daytime column chain, so radiation levels stay in
{-2, -1, 0}; third conjunct), and for those classes every band lookup
is defined (fourth conjunct).  On the concrete daytime environment
with wind speed 1, total cloud 3, low cloud 2, hour 12 the class is E
and the full method returns the class-E h-row1 and v-row0 pairs at
100 m, per the D/E/E~F/F row of the table. -/
theorem C1_band_selection :
    (∀ (stat : Stab) (x : ℚ), 0 < x →
      coeffSelect stat x =
        dpctPick stat (specBandIdx stat x).1 (specBandIdx stat x).2) ∧
    coeffSelect Stab.A 100 =
      some ((901074/1000000, 425809/1000000),
            (112154/100000, 79990/1000000)) ∧
    (∀ (sa : Option SolarAngle) (e : GDEnv) (stat : Stab),
      get_atmospheric_stability sa e = some stat →
      stat = Stab.D ∨ stat = Stab.E ∨ stat = Stab.F) ∧
    (∀ (stat : Stab) (x : ℚ), 0 < x →
      stat = Stab.D ∨ stat = Stab.E ∨ stat = Stab.F →
      (coeffSelect stat x).isSome) ∧
    get_atmospheric_stability (some saNoon) envA = some Stab.E ∧
    get_diffusion_param_coeffs (some saNoon) envA 100 =
      some (((920818/1000000, 86400/1000000),
             (78837/100000, 92753/1000000)), 100) := by
  have hE : get_atmospheric_stability (some saNoon) envA = some Stab.E := by
    simp [get_atmospheric_stability, get_solar_radiation_level, envA, saNoon,
      cloudRow, solarCol, srltEntry, SRLT, windRow, astEntry, srlCol, AST]
    norm_num
  refine ⟨?_, ?_, fun sa e stat h => stability_reachable sa e stat h,
          fun stat x hx hs => coeffSelect_reachable stat x hx hs, hE, ?_⟩
  · intro stat x hx
    cases stat <;>
      simp only [coeffSelect, specBandIdx, hx, true_and] <;>
      split_ifs <;>
      first
        | rfl
        | (exfalso; simp_all; try linarith)
  · norm_num [coeffSelect, dpctPick, dpctRow]
  · simp only [get_diffusion_param_coeffs, hE]
    norm_num [coeffSelect, dpctPick, dpctRow]

/-- C1 witness: the band-agreement conjunct applied to stability class
A at 100 m, the reachability conjunct applied to the concrete class-E
environment, and the definedness conjunct applied to class E at
100 m. -/
theorem C1_witness :
    coeffSelect Stab.A 100 =
      dpctPick Stab.A (specBandIdx Stab.A 100).1 (specBandIdx Stab.A 100).2 ∧
    (Stab.E = Stab.D ∨ Stab.E = Stab.E ∨ Stab.E = Stab.F) ∧
    (coeffSelect Stab.E 100).isSome :=
  ⟨C1_band_selection.1 Stab.A 100 (by norm_num),
   C1_band_selection.2.2.1 (some saNoon) envA Stab.E C1_band_selection.2.2.2.2.1,
   C1_band_selection.2.2.2.1 Stab.E 100 (by norm_num) (Or.inr (Or.inl rfl))⟩

/-- C8 amended: for a PointSourceGasDiffusion model with positive wind
speed and positive source strength, calc_concentration with crosswind
offset 0, ground height 0 and source height 0 returns
sourceStrength / (pi * windSpeed * sigma_y * sigma_z) whenever that
value is at least 1e-6, and 0 otherwise (the code clamps smaller
results), where sigma_y and sigma_z are the diffusion parameters the
model computes for the query (at the queried distance perturbed by the
float literal 1e-32, which IEEE double addition absorbs for any
distance of ordinary magnitude). -/
theorem C8_concentration (powf : ℚ → ℚ → ℚ) (expf : ℚ → ℚ) (sa : Option SolarAngle)
    (e : PSEnv) (hdis sy sz : ℚ)
    (hw : 0 < e.wind_speed) (hq : 0 < e.source_strength)
    (hs : calc_diffusion_parameters powf sa e.toGDEnv (hdis + 1 / 10 ^ 32) 30 =
      some (sy, sz)) :
    calc_concentration powf expf sa e hdis 0 0 0 =
      some (if e.source_strength / (piQ * e.wind_speed * sy * sz) < 1 / 10 ^ 6
            then 0
            else e.source_strength / (piQ * e.wind_speed * sy * sz)) := by
  rw [calc_concentration,
      if_pos (show (0:ℚ) ≤ 0 ∧ (0:ℚ) ≤ 0 ∧ (0:ℚ) ≤ 0 ∧ 0 < e.wind_speed from
        ⟨le_refl 0, le_refl 0, le_refl 0, hw⟩)]
  simp only [hs, calc_source_strength, if_pos hq]
  norm_num

set_option maxHeartbeats 1600000 in
/-- C8 counterexample: the claim without the 1e-6 clamp is false.  Under
hypotheses on the abstract power function that are true of math.pow
(positivity on positive bases, value one at base one), the night
environment with wind speed 7 (stability class D) and source strength
1e-8 g per s yields an all-zero-offset concentration below the clamp,
so the code returns 0 while the claimed formula value is positive. -/
theorem C8_counterexample :
    ¬ (∀ (powf : ℚ → ℚ → ℚ) (expf : ℚ → ℚ) (sa : Option SolarAngle) (e : PSEnv)
        (hdis sy sz : ℚ),
        (∀ x a : ℚ, 0 < x → 0 < powf x a) →
        (∀ a : ℚ, powf 1 a = 1) →
        0 < e.wind_speed → 0 < e.source_strength →
        calc_diffusion_parameters powf sa e.toGDEnv (hdis + 1 / 10 ^ 32) 30 =
          some (sy, sz) →
        calc_concentration powf expf sa e hdis 0 0 0 =
          some (e.source_strength / (piQ * e.wind_speed * sy * sz))) := by
  intro hclaim
  have hs : calc_diffusion_parameters (fun _ _ => 1) none e8.toGDEnv
      (100 + 1 / 10 ^ 32) 30 = some (110726/1000000, 104634/1000000) := by
    simp [calc_diffusion_parameters, get_diffusion_param_coeffs,
      get_atmospheric_stability, get_solar_radiation_level, e8, cloudRow,
      srltEntry, SRLT, windRow, astEntry, srlCol, AST, coeffSelect,
      dpctPick, dpctRow]
    norm_num
  have h := hclaim (fun _ _ => 1) (fun _ => 1) none e8 100
      (110726/1000000) (104634/1000000)
      (fun _ _ _ => one_pos) (fun _ => rfl)
      (by norm_num [e8]) (by norm_num [e8]) hs
  have hc : calc_concentration (fun _ _ => 1) (fun _ => 1) none e8 100 0 0 0 =
      some 0 := by
    rw [calc_concentration,
        if_pos (show (0:ℚ) ≤ 0 ∧ (0:ℚ) ≤ 0 ∧ (0:ℚ) ≤ 0 ∧ 0 < e8.wind_speed from
          ⟨le_refl 0, le_refl 0, le_refl 0, by norm_num [e8]⟩)]
    simp only [hs, calc_source_strength,
      if_pos (show (0:ℚ) < e8.source_strength from by norm_num [e8])]
    norm_num [e8, piQ]
  rw [hc] at h
  have h0 := Option.some.inj h
  rw [show e8.source_strength = 1 / 10 ^ 8 from rfl,
      show e8.wind_speed = 7 from rfl] at h0
  norm_num [piQ] at h0

set_option maxHeartbeats 1600000 in
/-- C8 witness: the amended theorem applied to a concrete model (wind
speed 7, source strength 1, stability class D at night, distance
100 m) with the power function instantiated to the constant one and
the sigma premise discharged by evaluation. -/
theorem C8_witness :
    calc_concentration (fun _ _ => 1) (fun _ => 1) none e8b 100 0 0 0 =
      some (if e8b.source_strength /
              (piQ * e8b.wind_speed * (110726/1000000) * (104634/1000000)) <
              1 / 10 ^ 6
            then 0
            else e8b.source_strength /
              (piQ * e8b.wind_speed * (110726/1000000) * (104634/1000000))) :=
  C8_concentration (fun _ _ => 1) (fun _ => 1) none e8b 100
    (110726/1000000) (104634/1000000)
    (by norm_num [e8b]) (by norm_num [e8b])
    (by
      simp [calc_diffusion_parameters, get_diffusion_param_coeffs,
        get_atmospheric_stability, get_solar_radiation_level, e8b, cloudRow,
        srltEntry, SRLT, windRow, astEntry, srlCol, AST, coeffSelect,
        dpctPick, dpctRow]
      norm_num)

/-- Reading just past a prefix of the heap selects from the suffix. -/
theorem heap_getD_append (h l : Heap) (i : ℕ) :
    hread (h ++ l) (h.length + i) = hread l i := by
  induction h with
  | nil => simp [hread]
  | cons a t ih => simpa [hread, Nat.succ_add] using ih

/-- Writing just past a prefix of the heap updates the suffix. -/
theorem heap_set_append (h l : Heap) (i : ℕ) (s : Series) :
    (h ++ l).set (h.length + i) s = h ++ l.set i s := by
  induction h with
  | nil => simp
  | cons a t ih => simp [Nat.succ_add, ih]

/-- The constructor allocates the empty result series and copies of the
two inputs at the next three heap addresses. -/
theorem initModel_eval (h : Heap) (matIn envIn : Series) :
    initModel h matIn envIn =
      (h ++ [[], matIn, envIn], ⟨h.length + 1, h.length + 2, h.length⟩) := by
  simp [initModel, halloc]

/-- C9 amended: the three getters return the live internal references,
not defensive copies: each returns exactly the address of the internal
attribute (first three conjuncts; the setter did copy its input, fourth
conjunct), and mutating the series behind a returned reference is
visible in the internal state of the instance (last three conjuncts:
after the caller adds a key through the returned reference, the
internal mapping holds the mutated series). -/
theorem C9_getters_alias (h : Heap) (matIn envIn : Series) (k : String) (v : Option ℚ) :
    get_material_params (initModel h matIn envIn).2 =
      (initModel h matIn envIn).2.matAddr ∧
    get_environment_params (initModel h matIn envIn).2 =
      (initModel h matIn envIn).2.envAddr ∧
    get_results (initModel h matIn envIn).2 =
      (initModel h matIn envIn).2.resAddr ∧
    hread (initModel h matIn envIn).1 (initModel h matIn envIn).2.matAddr = matIn ∧
    hread
      (hwrite (initModel h matIn envIn).1
        (get_material_params (initModel h matIn envIn).2)
        (seriesSet
          (hread (initModel h matIn envIn).1
            (get_material_params (initModel h matIn envIn).2)) k v))
      (initModel h matIn envIn).2.matAddr = seriesSet matIn k v ∧
    hread
      (hwrite (initModel h matIn envIn).1
        (get_environment_params (initModel h matIn envIn).2)
        (seriesSet
          (hread (initModel h matIn envIn).1
            (get_environment_params (initModel h matIn envIn).2)) k v))
      (initModel h matIn envIn).2.envAddr = seriesSet envIn k v ∧
    hread
      (hwrite (initModel h matIn envIn).1
        (get_results (initModel h matIn envIn).2)
        (seriesSet
          (hread (initModel h matIn envIn).1
            (get_results (initModel h matIn envIn).2)) k v))
      (initModel h matIn envIn).2.resAddr = seriesSet [] k v := by
  rw [initModel_eval]
  have hr0 : hread (h ++ [[], matIn, envIn]) h.length = [] := by
    simpa using heap_getD_append h [[], matIn, envIn] 0
  have hr1 : hread (h ++ [[], matIn, envIn]) (h.length + 1) = matIn :=
    heap_getD_append h [[], matIn, envIn] 1
  have hr2 : hread (h ++ [[], matIn, envIn]) (h.length + 2) = envIn :=
    heap_getD_append h [[], matIn, envIn] 2
  refine ⟨rfl, rfl, rfl, hr1, ?_, ?_, ?_⟩
  · show hread
      (hwrite (h ++ [[], matIn, envIn]) (h.length + 1)
        (seriesSet (hread (h ++ [[], matIn, envIn]) (h.length + 1)) k v))
      (h.length + 1) = seriesSet matIn k v
    rw [hr1, hwrite, heap_set_append h [[], matIn, envIn] 1 (seriesSet matIn k v)]
    exact heap_getD_append h _ 1
  · show hread
      (hwrite (h ++ [[], matIn, envIn]) (h.length + 2)
        (seriesSet (hread (h ++ [[], matIn, envIn]) (h.length + 2)) k v))
      (h.length + 2) = seriesSet envIn k v
    rw [hr2, hwrite, heap_set_append h [[], matIn, envIn] 2 (seriesSet envIn k v)]
    exact heap_getD_append h _ 2
  · show hread
      (hwrite (h ++ [[], matIn, envIn]) h.length
        (seriesSet (hread (h ++ [[], matIn, envIn]) h.length) k v))
      h.length = seriesSet [] k v
    rw [hr0, hwrite]
    have := heap_set_append h [[], matIn, envIn] 0 (seriesSet [] k v)
    rw [Nat.add_zero] at this
    rw [this]
    simpa using heap_getD_append h _ 0

/-- C9 counterexample: on a concrete instance, mutating the mapping
returned by get_material_params (adding the key x through the returned
reference) changes the internal material-parameter state, so the
getter did not return a defensive copy. -/
theorem C9_counterexample :
    hread demoMutated demoInit.2.matAddr = [("a", some 1), ("x", some 9)] ∧
    hread demoInit.1 demoInit.2.matAddr = [("a", some 1)] ∧
    hread demoMutated demoInit.2.matAddr ≠ hread demoInit.1 demoInit.2.matAddr := by
  have h1 : hread demoMutated demoInit.2.matAddr = [("a", some 1), ("x", some 9)] := by
    simp [demoMutated, demoInit, initModel, halloc, hread, hwrite,
      seriesSet, get_material_params]
  have h2 : hread demoInit.1 demoInit.2.matAddr = [("a", some 1)] := by
    simp [demoInit, initModel, halloc, hread]
  refine ⟨h1, h2, ?_⟩
  rw [h1, h2]
  simp
